import Mathlib

/-
Verification of the payment microservice (services/payment) of
Tobias-Pe/Microservices-Errorhandling.

The development shallowly embeds the Go source:
  * `mockPayment` / `mockPaymentRollback` (service.go, lines 160-185):
    string normalisation and the a-z scan;
  * `ListenOrders` (service.go, lines 188-241): the per-delivery
    acknowledge / compensate / publish protocol, modelled as a function
    from a delivery (with its environment-chosen ack and publish
    outcomes) to the list of observable events the loop body performs,
    and the recursive restart-on-stream-end behaviour;
  * `NewService` (service.go, lines 57-82): the connection retry loop
    with exponential backoff;
  * `initAmqpConnection` / `createOrderListener` (service.go, lines
    84-157): channel QoS and the exchange/queue/binding/consumer
    topology, modelled as the list of declaration actions performed.

External broker calls (Dial, Ack, Publish, the topology declarations)
are nondeterministic from the program's point of view; their outcomes
are inputs to the embedded functions.
-/

namespace Payment

/-- Whitespace as recognised by Go's `strings.TrimSpace` on the
Latin-1 fast path (`unicode.IsSpace`): tab, newline, vertical tab,
form feed, carriage return, space, NEL and NBSP.  Higher code points
follow the Unicode White_Space property, which no claim exercises. -/
def isGoSpace (c : Char) : Bool :=
  c = '\t' || c = '\n' || c = Char.ofNat 11 || c = Char.ofNat 12 ||
  c = '\r' || c = ' ' || c = Char.ofNat 133 || c = Char.ofNat 160

/-- Go's `strings.TrimSpace`: drop leading and trailing whitespace. -/
def goTrimSpace (s : String) : String :=
  ⟨((s.data.dropWhile fun c => isGoSpace c).reverse.dropWhile fun c =>
      isGoSpace c).reverse⟩

/-- Go's `strings.ToLower` on one character, restricted to the ASCII
range exercised by the source's a-z check: uppercase ASCII letters map
to lowercase, everything else is unchanged. -/
def goToLowerChar (c : Char) : Char :=
  if 'A' ≤ c ∧ c ≤ 'Z' then Char.ofNat (c.toNat + 32) else c

/-- Go's `strings.ToLower` mapped over the string's runes. -/
def goToLower (s : String) : String :=
  ⟨s.data.map goToLowerChar⟩

/-- The scanning loop of `mockPayment` (service.go 163-170): iterate
over the runes, returning `false` as soon as a character in a-z is
seen (the random sleep per character has no observable effect on the
result and is omitted). -/
def mockPaymentScan : List Char → Bool
  | [] => true
  | c :: rest => if 'a' ≤ c ∧ c ≤ 'z' then false else mockPaymentScan rest

/-- `mockPayment` (service.go 160-172): normalise by
`ToLower(TrimSpace(creditCard))`, then scan for a-z characters. -/
def mockPayment (creditCard : String) : Bool :=
  mockPaymentScan (goToLower (goTrimSpace creditCard)).data

/-- Modelled from the spec: `models.Status` (pkg/models, not under
src/) pairs a lifecycle-stage name with a human-readable message. -/
structure Status where
  name : String
  message : String
deriving DecidableEq, Repr

/-- Modelled from the spec: `models.StatusAborted` (pkg/models, not
under src/) is the Aborted lifecycle status carrying the given
customer-facing message. -/
def StatusAborted (message : String) : Status :=
  { name := "Aborted", message := message }

/-- Modelled from the spec: `models.StatusShipping` (pkg/models, not
under src/) is the Shipping lifecycle status; its message text is
unconstrained by the spec and irrelevant to every claim. -/
def StatusShipping : Status :=
  { name := "Shipping", message := "" }

/-- Modelled from the spec: `models.Order` (pkg/models, not under
src/), with the fields the spec names (id, customerCreditCard, status,
message) and the opaque passed-through payload (items, address). -/
structure Order where
  id : String
  customerCreditCard : String
  status : String
  message : String
  items : List String
  address : String
deriving DecidableEq, Repr

/-- The abort explanation string of service.go line 207. -/
def abortMessage : String :=
  "We could not get the needed amount from your credit card. Please check your account."

/-- One broker delivery as seen by the loop body of `ListenOrders`:
the decoded body (`none` when `json.Unmarshal` fails), and the
environment-chosen outcomes of the `Ack` and
`PublishOrderStatusUpdate` calls. -/
structure Delivery where
  body : Option Order
  ackOk : Bool
  publishOk : Bool
deriving DecidableEq, Repr

/-- Observable actions of the loop body of `ListenOrders`:
the `mockPayment` call and its result, the `Ack` attempt and its
outcome, the `mockPaymentRollback` call with its argument, the
assignment of a new status to the in-memory order, and the
`PublishOrderStatusUpdate` call with the order it publishes and its
outcome. -/
inductive Event where
  | payment (creditCard : String) (result : Bool)
  | ack (ok : Bool)
  | rollback (creditCard : String)
  | setStatus (status : Status)
  | publish (order : Order) (ok : Bool)
deriving DecidableEq, Repr

/-- The body of the `for message := range service.orderMessages` loop
of `ListenOrders` (service.go 189-231), as the list of events it
performs for one delivery.  Mirrors the source: decode; on success run
`mockPayment`, attempt `Ack`; if the ack failed, roll back exactly
when the payment was allowed; if the ack succeeded, set the status
(Aborted with `abortMessage` when not allowed, Shipping otherwise) and
publish the updated order.  On decode failure, only attempt `Ack`. -/
def processDelivery (d : Delivery) : List Event :=
  match d.body with
  | some order =>
    let isAllowed := mockPayment order.customerCreditCard
    if d.ackOk = false then
      if isAllowed then
        [Event.payment order.customerCreditCard isAllowed,
         Event.ack false,
         Event.rollback order.customerCreditCard]
      else
        [Event.payment order.customerCreditCard isAllowed,
         Event.ack false]
    else
      let status :=
        if isAllowed = false then StatusAborted abortMessage else StatusShipping
      let order2 :=
        { order with status := status.name, message := status.message }
      [Event.payment order.customerCreditCard isAllowed,
       Event.ack true,
       Event.setStatus status,
       Event.publish order2 d.publishOk]
  | none =>
    [Event.ack d.ackOk]

/-- The events of processing a finite prefix of the delivery stream,
in order: the loop handles deliveries strictly sequentially. -/
def processDeliveries : List Delivery → List Event
  | [] => []
  | d :: rest => processDelivery d ++ processDeliveries rest

/-- Recogniser for publish events. -/
def Event.isPublishEv : Event → Bool
  | .publish _ _ => true
  | _ => false

/-- Recogniser for rollback events. -/
def Event.isRollbackEv : Event → Bool
  | .rollback _ => true
  | _ => false

/-- Recogniser for status-assignment events. -/
def Event.isSetStatusEv : Event → Bool
  | .setStatus _ => true
  | _ => false

/-- Recogniser for payment (authorization) events. -/
def Event.isPaymentEv : Event → Bool
  | .payment _ _ => true
  | _ => false

/-- Number of `PublishOrderStatusUpdate` invocations in a trace. -/
def countPublish (evs : List Event) : Nat :=
  (evs.filter Event.isPublishEv).length

/-- Number of `mockPaymentRollback` invocations in a trace. -/
def countRollback (evs : List Event) : Nat :=
  (evs.filter Event.isRollbackEv).length

/-- Number of status assignments in a trace. -/
def countSetStatus (evs : List Event) : Nat :=
  (evs.filter Event.isSetStatusEv).length

/-- Number of `mockPayment` invocations in a trace. -/
def countPayment (evs : List Event) : Nat :=
  (evs.filter Event.isPaymentEv).length

/-- Modelled from the spec: the constant `requests.OrderTopic`
(api/requests, not under src/), the name of the order-event domain
topic exchange. -/
def OrderTopic : String := "order"

/-- Modelled from the spec: the constant `requests.OrderStatusPay`
(api/requests, not under src/), the fixed routing key representing
"payment requested". -/
def OrderStatusPay : String := "pay"

/-- The queue name built in `createOrderListener` (service.go 122). -/
def paymentQueueName : String := "payment_" ++ OrderTopic ++ "_queue"

/-- The channel QoS configured by `initAmqpConnection`
(service.go 96-100): prefetch count 1, prefetch size 0, not global. -/
structure ChannelQos where
  prefetchCount : Nat
  prefetchSize : Nat
  global : Bool
deriving DecidableEq, Repr

/-- The QoS values passed to `AmqpChannel.Qos` in
`initAmqpConnection` (service.go 96-100). -/
def initQos : ChannelQos := { prefetchCount := 1, prefetchSize := 0, global := false }

/-- The broker declarations performed by `createOrderListener`, with
the argument lists of the corresponding amqp calls
(`ExchangeDeclare`, `QueueDeclare`, `QueueBind`, `Consume`). -/
inductive TopologyAction where
  | exchangeDeclare (name kind : String)
      (durable autoDeleted internal noWait : Bool)
  | queueDeclare (name : String)
      (durable deleteWhenUnused exclusive noWait : Bool)
  | queueBind (queueName routingKey exchange : String) (noWait : Bool)
  | consume (queue consumer : String)
      (autoAck exclusive noLocal noWait : Bool)
deriving DecidableEq, Repr

/-- Outcomes chosen by the broker for the four calls of
`createOrderListener`. -/
structure TopoEnv where
  exchangeOk : Bool
  queueOk : Bool
  bindOk : Bool
  consumeOk : Bool
deriving DecidableEq, Repr

/-- A broker environment in which every topology call succeeds. -/
def allTopoOk : TopoEnv :=
  { exchangeOk := true, queueOk := true, bindOk := true, consumeOk := true }

/-- `createOrderListener` (service.go 108-157): declare the durable
topic exchange `OrderTopic`, the durable non-exclusive
non-auto-deleted queue `paymentQueueName`, bind the `OrderStatusPay`
routing key from the exchange to the queue, and register a consumer
with manual acknowledgment.  Returns whether the whole setup succeeded
together with the calls attempted (each error aborts the rest, as
each `if err != nil return err` in the source does). -/
def createOrderListener (env : TopoEnv) : Bool × List TopologyAction :=
  let a1 := TopologyAction.exchangeDeclare OrderTopic "topic" true false false false
  if env.exchangeOk = false then (false, [a1]) else
  let a2 := TopologyAction.queueDeclare paymentQueueName true false false false
  if env.queueOk = false then (false, [a1, a2]) else
  let a3 := TopologyAction.queueBind paymentQueueName OrderStatusPay OrderTopic false
  if env.bindOk = false then (false, [a1, a2, a3]) else
  let a4 := TopologyAction.consume paymentQueueName "" false false false false
  (env.consumeOk, [a1, a2, a3, a4])

/-- Outcome of the retry loop of `NewService`: whether a connection
was established, the sleep durations performed (in seconds, in
order), and how many times `initAmqpConnection` was called. -/
structure RetryResult where
  connected : Bool
  sleeps : List Nat
  attempts : Nat
deriving DecidableEq, Repr

/-- The retry loop of `NewService` (service.go 62-69): up to
`remaining` further attempts, the next one having index `i`; each
failed attempt is followed by a `2^i`-second sleep.  `connectOk i` is
the outcome of `initAmqpConnection` on attempt `i`. -/
def retryConnect (connectOk : Nat → Bool) : Nat → Nat → RetryResult
  | _, 0 => { connected := false, sleeps := [], attempts := 0 }
  | i, remaining + 1 =>
    if connectOk i then { connected := true, sleeps := [], attempts := 1 }
    else
      let rest := retryConnect connectOk (i + 1) remaining
      { connected := rest.connected, sleeps := 2 ^ i :: rest.sleeps,
        attempts := rest.attempts + 1 }

/-- The successfully constructed service state: the QoS set on its
channel and the topology it declared. -/
structure Service where
  qos : ChannelQos
  topology : List TopologyAction
deriving DecidableEq, Repr

/-- `NewService` (service.go 57-82): retry `initAmqpConnection` up to
6 times with exponential backoff; on exhaustion return `none` (nil).
Then run `createOrderListener`; on its failure return `none`.
The second component records the retry loop's behaviour. -/
def NewService (connectOk : Nat → Bool) (env : TopoEnv) :
    Option Service × RetryResult :=
  let r := retryConnect connectOk 0 6
  if r.connected = false then (none, r)
  else
    let listener := createOrderListener env
    if listener.1 = false then (none, r)
    else (some { qos := initQos, topology := listener.2 }, r)

/-- One connection epoch of the consumer: the deliveries the broker
hands over before the channel/connection is lost, and the broker
outcomes of the `createOrderListener` rebuild attempted when the
stream ends. -/
structure Session where
  deliveries : List Delivery
  rebuildEnv : TopoEnv
deriving Repr

/-- Whether the topology rebuild at the end of a session succeeds. -/
def sessionRebuildOk (s : Session) : Bool :=
  (createOrderListener s.rebuildEnv).1

/-- A rebuild marker in the combined trace: the outcome of the
`createOrderListener` call made after a stream terminated. -/
inductive LoopEvent where
  | step (e : Event)
  | rebuildListener (ok : Bool)
deriving DecidableEq, Repr

/-- Deliveries of one epoch, lifted into the combined trace. -/
def epochEvents (s : Session) : List LoopEvent :=
  (processDeliveries s.deliveries).map LoopEvent.step ++
    [LoopEvent.rebuildListener (sessionRebuildOk s)]

/-- `ListenOrders` (service.go 188-241) across connection epochs:
drain the current delivery stream, then (stream ended) call
`createOrderListener` once; if it fails the function returns, else it
recurses on the next epoch.  `sessions n` is epoch `n`'s stream and
rebuild outcome; `fuel` bounds how many epochs are observed.  Returns
the combined trace and whether the function returned (as opposed to
still running when the observation window closes). -/
def listenOrdersGo (sessions : Nat → Session) : Nat → List LoopEvent × Bool
  | 0 => ([], false)
  | fuel + 1 =>
    let s := sessions 0
    if sessionRebuildOk s then
      let r := listenOrdersGo (fun i => sessions (i + 1)) fuel
      (epochEvents s ++ r.1, r.2)
    else (epochEvents s, true)

/-- The observable behaviour of `ListenOrders` started on epoch 0. -/
def ListenOrders (sessions : Nat → Session) (fuel : Nat) :
    List LoopEvent × Bool :=
  listenOrdersGo sessions fuel

/-- Recogniser for rebuild markers in the combined trace. -/
def LoopEvent.isRebuildEv : LoopEvent → Bool
  | .rebuildListener _ => true
  | _ => false

/-- Number of topology rebuilds in a combined trace. -/
def countRebuild (evs : List LoopEvent) : Nat :=
  (evs.filter LoopEvent.isRebuildEv).length

/-- The concatenated traces of the first `n` connection epochs:
each epoch's delivery events followed by its single rebuild marker. -/
def epochsTrace (sessions : Nat → Session) : Nat → List LoopEvent
  | 0 => []
  | n + 1 =>
    epochEvents (sessions 0) ++ epochsTrace (fun i => sessions (i + 1)) n

/-- The order of the spec's §8 scenario: id "o1", credit card
"4242-4242", status Created. -/
def sampleOrder : Order :=
  { id := "o1", customerCreditCard := "4242-4242", status := "Created",
    message := "", items := [], address := "" }

/-- The scenario delivery with a failing acknowledgment. -/
def sampleDeliveryAckFail : Delivery :=
  { body := some sampleOrder, ackOk := false, publishOk := true }

/-- The scenario delivery with a successful acknowledgment. -/
def sampleDeliveryAckOk : Delivery :=
  { body := some sampleOrder, ackOk := true, publishOk := true }

/-- An undecodable delivery with a successful acknowledgment. -/
def sampleDeliveryBadBody : Delivery :=
  { body := none, ackOk := true, publishOk := true }

/-- Epochs with empty streams whose rebuild always fails (the broker
rejects the exchange declaration). -/
def failSessions : Nat → Session := fun _ =>
  { deliveries := [],
    rebuildEnv :=
      { exchangeOk := false, queueOk := true, bindOk := true,
        consumeOk := true } }

end Payment

namespace Payment

lemma mockPaymentScan_eq_false_iff (l : List Char) :
    mockPaymentScan l = false ↔ ∃ c ∈ l, 'a' ≤ c ∧ c ≤ 'z' := by
  induction l with
  | nil => simp [mockPaymentScan]
  | cons c rest ih =>
    by_cases h : 'a' ≤ c ∧ c ≤ 'z'
    · simp [mockPaymentScan, h]
    · simp [mockPaymentScan, h, ih]

/-- C4: the authorization function normalises its input by trimming
whitespace and lowercasing and returns false exactly when some
character of the normalised string lies in a-z; in particular
`mockPayment "4111 1111" = true`, `mockPayment "abc123" = false` and
`mockPayment "4111ABCD" = false`. -/
theorem claim_C4 (s : String) :
    (mockPayment s = false ↔
      ∃ c ∈ (goToLower (goTrimSpace s)).data, 'a' ≤ c ∧ c ≤ 'z')
    ∧ mockPayment "4111 1111" = true
    ∧ mockPayment "abc123" = false
    ∧ mockPayment "4111ABCD" = false := by
  refine ⟨mockPaymentScan_eq_false_iff _, by decide, by decide, by decide⟩

/-- C10: the authorization function accepts the empty string, and
accepts every string whose characters are all whitespace (the trim
leaves the empty string, whose scan finds no a-z character). -/
theorem claim_C10 :
    mockPayment "" = true ∧
    ∀ s : String, (∀ c ∈ s.data, isGoSpace c = true) →
      mockPayment s = true := by
  refine ⟨by decide, fun s h => ?_⟩
  have htrim : goTrimSpace s = "" := by
    have : s.data.dropWhile (fun c => isGoSpace c) = [] :=
      List.dropWhile_eq_nil_iff.mpr h
    simp [goTrimSpace, this]
  simp [mockPayment, htrim, goToLower, mockPaymentScan]

/-- C10 witness: a whitespace-only credit card string is authorized. -/
theorem claim_C10_witness : mockPayment "  " = true :=
  claim_C10.2 "  " (by decide)

/-- C1: per delivery, the Status Publisher is invoked at most once; it
is invoked only when the acknowledgment succeeded, and never when the
acknowledgment failed. -/
theorem claim_C1 (d : Delivery) :
    countPublish (processDelivery d) ≤ 1
    ∧ (0 < countPublish (processDelivery d) → d.ackOk = true)
    ∧ (d.ackOk = false → countPublish (processDelivery d) = 0) := by
  obtain ⟨body, ackOk, pubOk⟩ := d
  cases body with
  | none =>
    cases ackOk <;>
      simp [processDelivery, countPublish, Event.isPublishEv]
  | some o =>
    cases ackOk <;> cases h : mockPayment o.customerCreditCard <;>
      simp [processDelivery, countPublish, Event.isPublishEv, h]

/-- C1 witness: a delivery whose acknowledgment fails publishes
nothing. -/
theorem claim_C1_witness :
    countPublish (processDelivery sampleDeliveryAckFail) = 0 :=
  (claim_C1 sampleDeliveryAckFail).2.2 rfl

/-- C2: on a decoded delivery whose acknowledgment fails, the rollback
runs with that order's credit-card string before any event of the next
delivery exactly when authorization had succeeded; when authorization
had failed, no rollback runs. -/
theorem claim_C2 (d : Delivery) (o : Order) (rest : List Delivery)
    (hbody : d.body = some o) (hack : d.ackOk = false) :
    (mockPayment o.customerCreditCard = true →
      processDeliveries (d :: rest) =
        Event.payment o.customerCreditCard true :: Event.ack false ::
          Event.rollback o.customerCreditCard :: processDeliveries rest)
    ∧ (mockPayment o.customerCreditCard = false →
      processDeliveries (d :: rest) =
        Event.payment o.customerCreditCard false :: Event.ack false ::
          processDeliveries rest) := by
  constructor <;> intro hpay <;>
    simp [processDeliveries, processDelivery, hbody, hack, hpay]

/-- C2 witness: the scenario order with a failed acknowledgment rolls
back with its credit-card string. -/
theorem claim_C2_witness :
    processDeliveries [sampleDeliveryAckFail] =
      Event.payment sampleOrder.customerCreditCard true :: Event.ack false ::
        Event.rollback sampleOrder.customerCreditCard ::
          processDeliveries [] :=
  (claim_C2 sampleDeliveryAckFail sampleOrder [] rfl rfl).1 (by decide)

/-- C5: a delivery whose body does not decode is only acknowledged:
no authorization, no rollback, no status assignment, no publish. -/
theorem claim_C5 (d : Delivery) (hbody : d.body = none) :
    processDelivery d = [Event.ack d.ackOk]
    ∧ countPayment (processDelivery d) = 0
    ∧ countRollback (processDelivery d) = 0
    ∧ countSetStatus (processDelivery d) = 0
    ∧ countPublish (processDelivery d) = 0 := by
  simp [processDelivery, hbody, countPayment, countRollback, countSetStatus,
    countPublish, Event.isPaymentEv, Event.isRollbackEv, Event.isSetStatusEv,
    Event.isPublishEv]

/-- C5 witness: an undecodable delivery with a successful ack yields
exactly the acknowledgment event. -/
theorem claim_C5_witness :
    processDelivery sampleDeliveryBadBody = [Event.ack true] :=
  (claim_C5 sampleDeliveryBadBody rfl).1

/-- C3: on a decoded, successfully acknowledged delivery the applied
status is determined solely by the authorization boolean — Aborted
with the customer-facing explanation when authorization failed,
Shipping when it succeeded — and the updated order is handed to the
Status Publisher. -/
theorem claim_C3 (d : Delivery) (o : Order)
    (hbody : d.body = some o) (hack : d.ackOk = true) :
    ∃ st o2,
      processDelivery d =
        [Event.payment o.customerCreditCard (mockPayment o.customerCreditCard),
         Event.ack true, Event.setStatus st, Event.publish o2 d.publishOk]
      ∧ (mockPayment o.customerCreditCard = false →
          st = StatusAborted abortMessage)
      ∧ (mockPayment o.customerCreditCard = true → st = StatusShipping)
      ∧ o2 = { o with status := st.name, message := st.message }
      ∧ (st = StatusAborted abortMessage ∨ st = StatusShipping) := by
  cases h : mockPayment o.customerCreditCard with
  | false =>
    refine ⟨StatusAborted abortMessage,
      { o with status := (StatusAborted abortMessage).name,
               message := (StatusAborted abortMessage).message },
      ?_, fun _ => rfl, fun hc => by simp [h] at hc,
      rfl, Or.inl rfl⟩
    simp [processDelivery, hbody, hack, h]
  | true =>
    refine ⟨StatusShipping,
      { o with status := StatusShipping.name,
               message := StatusShipping.message },
      ?_, fun hc => by simp [h] at hc, fun _ => rfl,
      rfl, Or.inr rfl⟩
    simp [processDelivery, hbody, hack, h]

/-- C3 witness: the scenario order, acknowledged successfully, is
published with the Shipping status. -/
theorem claim_C3_witness :
    ∃ st o2,
      processDelivery sampleDeliveryAckOk =
        [Event.payment sampleOrder.customerCreditCard
           (mockPayment sampleOrder.customerCreditCard),
         Event.ack true, Event.setStatus st,
         Event.publish o2 sampleDeliveryAckOk.publishOk]
      ∧ (mockPayment sampleOrder.customerCreditCard = false →
          st = StatusAborted abortMessage)
      ∧ (mockPayment sampleOrder.customerCreditCard = true →
          st = StatusShipping)
      ∧ o2 = { sampleOrder with status := st.name, message := st.message }
      ∧ (st = StatusAborted abortMessage ∨ st = StatusShipping) :=
  claim_C3 sampleDeliveryAckOk sampleOrder rfl rfl

/-- C9 counterexample: the status is not mutated exactly once on every
decoded delivery — on a delivery whose acknowledgment fails, the
status is never assigned. -/
theorem claim_C9_counterexample :
    ¬ ∀ (d : Delivery) (o : Order), d.body = some o →
        countSetStatus (processDelivery d) = 1 := by
  intro h
  have h0 := h sampleDeliveryAckFail sampleOrder rfl
  revert h0
  decide

/-- C9 (amended): every order the service publishes agrees with the
decoded order on id, credit card, items and address, and carries a
Shipping or Aborted status; the status is assigned exactly once when
the acknowledgment succeeds, and never when the acknowledgment
fails. -/
theorem claim_C9 (d : Delivery) (o : Order) (hbody : d.body = some o) :
    (∀ o2 ok, Event.publish o2 ok ∈ processDelivery d →
      o2.id = o.id ∧ o2.customerCreditCard = o.customerCreditCard ∧
      o2.items = o.items ∧ o2.address = o.address ∧
      (o2.status = StatusShipping.name ∨
        o2.status = (StatusAborted abortMessage).name))
    ∧ (d.ackOk = true →
        countSetStatus (processDelivery d) = 1 ∧
        ∃ st, Event.setStatus st ∈ processDelivery d ∧
          (st = StatusShipping ∨ st = StatusAborted abortMessage))
    ∧ (d.ackOk = false → countSetStatus (processDelivery d) = 0) := by
  obtain ⟨body, ackOk, pubOk⟩ := d
  obtain rfl : body = some o := hbody
  cases ackOk <;> cases h : mockPayment o.customerCreditCard <;>
    simp [processDelivery, h, countSetStatus, Event.isSetStatusEv,
      StatusAborted, StatusShipping]

/-- C9 witness: on the successfully acknowledged scenario delivery the
status is assigned exactly once, to Shipping or Aborted, and the
published order keeps the other fields. -/
theorem claim_C9_witness :
    countSetStatus (processDelivery sampleDeliveryAckOk) = 1 :=
  ((claim_C9 sampleDeliveryAckOk sampleOrder rfl).2.1 rfl).1

lemma retryConnect_attempts_le (connectOk : Nat → Bool) :
    ∀ r i, (retryConnect connectOk i r).attempts ≤ r := by
  intro r
  induction r with
  | zero => intro i; simp [retryConnect]
  | succ r ih =>
    intro i
    by_cases h : connectOk i
    · simp [retryConnect, h]
    · simpa [retryConnect, h] using Nat.succ_le_succ (ih (i + 1))

lemma retryConnect_sleeps_length (connectOk : Nat → Bool) :
    ∀ r i, (retryConnect connectOk i r).sleeps.length ≤ r := by
  intro r
  induction r with
  | zero => intro i; simp [retryConnect]
  | succ r ih =>
    intro i
    by_cases h : connectOk i
    · simp [retryConnect, h]
    · simpa [retryConnect, h] using Nat.succ_le_succ (ih (i + 1))

lemma retryConnect_sleeps_get (connectOk : Nat → Bool) :
    ∀ r i k, k < (retryConnect connectOk i r).sleeps.length →
      (retryConnect connectOk i r).sleeps.get? k = some (2 ^ (i + k)) := by
  intro r
  induction r with
  | zero => intro i k hk; simp [retryConnect] at hk
  | succ r ih =>
    intro i k hk
    by_cases h : connectOk i
    · simp [retryConnect, h] at hk
    · cases k with
      | zero => simp [retryConnect, h]
      | succ k =>
        have hk2 : k < (retryConnect connectOk (i + 1) r).sleeps.length := by
          simpa [retryConnect, h] using hk
        have := ih (i + 1) k hk2
        have hidx : i + 1 + k = i + (k + 1) := by omega
        simp only [retryConnect, h, if_false, Bool.false_eq_true,
          List.get?_cons_succ]
        rw [this, hidx]

lemma NewService_retry (connectOk : Nat → Bool) (env : TopoEnv) :
    (NewService connectOk env).2 = retryConnect connectOk 0 6 := by
  simp only [NewService]
  split
  · rfl
  · split <;> rfl

/-- C6: service construction makes at most 6 connection attempts, the
sleep after failed attempt `k` lasts `2^k` seconds, and when all 6
attempts fail the loop made exactly 6 attempts, slept exactly 1, 2, 4,
8, 16 and 32 seconds, and `NewService` yields no service. -/
theorem claim_C6 (connectOk : Nat → Bool) (env : TopoEnv) :
    (NewService connectOk env).2.attempts ≤ 6
    ∧ (∀ k, k < (NewService connectOk env).2.sleeps.length →
        (NewService connectOk env).2.sleeps.get? k = some (2 ^ k))
    ∧ ((∀ i, i < 6 → connectOk i = false) →
        (NewService connectOk env).1 = none
        ∧ (NewService connectOk env).2.attempts = 6
        ∧ (NewService connectOk env).2.sleeps = [1, 2, 4, 8, 16, 32]) := by
  refine ⟨?_, ?_, ?_⟩
  · rw [NewService_retry]
    exact retryConnect_attempts_le connectOk 6 0
  · intro k hk
    rw [NewService_retry] at hk ⊢
    simpa using retryConnect_sleeps_get connectOk 6 0 k hk
  · intro hall
    have h0 := hall 0 (by omega)
    have h1 := hall 1 (by omega)
    have h2 := hall 2 (by omega)
    have h3 := hall 3 (by omega)
    have h4 := hall 4 (by omega)
    have h5 := hall 5 (by omega)
    have hconn : retryConnect connectOk 0 6 =
        { connected := false, sleeps := [1, 2, 4, 8, 16, 32],
          attempts := 6 } := by
      simp [retryConnect, h0, h1, h2, h3, h4, h5]
    refine ⟨by simp [NewService, hconn], ?_, ?_⟩ <;>
      rw [NewService_retry, hconn]

/-- C6 witness: with every connection attempt failing, construction
fails after 6 attempts and sleeps of 1, 2, 4, 8, 16 and 32 seconds. -/
theorem claim_C6_witness :
    (NewService (fun _ => false) allTopoOk).1 = none
    ∧ (NewService (fun _ => false) allTopoOk).2.attempts = 6
    ∧ (NewService (fun _ => false) allTopoOk).2.sleeps =
        [1, 2, 4, 8, 16, 32] :=
  (claim_C6 (fun _ => false) allTopoOk).2.2 (fun _ _ => rfl)

/-- C7: with a cooperating broker, topology setup performs exactly the
four declarations of the source — the durable topic exchange named
after the order domain, the durable non-exclusive non-auto-deleted
queue named "payment_" ++ topic ++ "_queue", the binding of the "pay"
routing key, and a consumer with manual acknowledgment — under the
channel's prefetch count of 1. -/
theorem claim_C7 :
    (createOrderListener allTopoOk).1 = true
    ∧ (createOrderListener allTopoOk).2 =
        [TopologyAction.exchangeDeclare OrderTopic "topic"
           true false false false,
         TopologyAction.queueDeclare paymentQueueName true false false false,
         TopologyAction.queueBind paymentQueueName OrderStatusPay
           OrderTopic false,
         TopologyAction.consume paymentQueueName "" false false false false]
    ∧ paymentQueueName = "payment_" ++ OrderTopic ++ "_queue"
    ∧ OrderStatusPay = "pay"
    ∧ initQos.prefetchCount = 1 :=
  ⟨rfl, rfl, rfl, rfl, rfl⟩

lemma listenOrdersGo_all_ok (fuel : Nat) :
    ∀ sessions : Nat → Session,
      (∀ j, j < fuel → sessionRebuildOk (sessions j) = true) →
      listenOrdersGo sessions fuel = (epochsTrace sessions fuel, false) := by
  induction fuel with
  | zero => intro sessions _; rfl
  | succ f ih =>
    intro sessions h
    have h0 : sessionRebuildOk (sessions 0) = true := h 0 (Nat.succ_pos f)
    have hrest := ih (fun i => sessions (i + 1))
      (fun j hj => h (j + 1) (by omega))
    simp [listenOrdersGo, epochsTrace, h0, hrest]

lemma listenOrdersGo_first_fail :
    ∀ (k : Nat) (sessions : Nat → Session) (fuel : Nat), k < fuel →
      (∀ j, j < k → sessionRebuildOk (sessions j) = true) →
      sessionRebuildOk (sessions k) = false →
      listenOrdersGo sessions fuel = (epochsTrace sessions (k + 1), true) := by
  intro k
  induction k with
  | zero =>
    intro sessions fuel hlt _ hfail
    obtain ⟨f, rfl⟩ : ∃ f, fuel = f + 1 := ⟨fuel - 1, by omega⟩
    simp [listenOrdersGo, hfail, epochsTrace]
  | succ k ih =>
    intro sessions fuel hlt hok hfail
    obtain ⟨f, rfl⟩ : ∃ f, fuel = f + 1 := ⟨fuel - 1, by omega⟩
    have h0 : sessionRebuildOk (sessions 0) = true := hok 0 (by omega)
    have hrest := ih (fun i => sessions (i + 1)) f (by omega)
      (fun j hj => hok (j + 1) (by omega)) hfail
    simp [listenOrdersGo, epochsTrace, h0, hrest]

lemma filter_rebuild_map_step (l : List Event) :
    (l.map LoopEvent.step).filter LoopEvent.isRebuildEv = [] := by
  induction l with
  | nil => rfl
  | cons e rest ih => simp [LoopEvent.isRebuildEv, ih]

lemma countRebuild_epochEvents (s : Session) :
    countRebuild (epochEvents s) = 1 := by
  simp [countRebuild, epochEvents, List.filter_append,
    filter_rebuild_map_step, LoopEvent.isRebuildEv]

lemma countRebuild_epochsTrace :
    ∀ (n : Nat) (sessions : Nat → Session),
      countRebuild (epochsTrace sessions n) = n := by
  intro n
  induction n with
  | zero => intro sessions; rfl
  | succ m ih =>
    intro sessions
    simp [epochsTrace, countRebuild, List.filter_append]
    have h1 := countRebuild_epochEvents (sessions 0)
    have h2 := ih (fun i => sessions (i + 1))
    simp [countRebuild] at h1 h2
    omega

/-- C8: when every rebuild succeeds the loop processes every epoch and
does not return; when the first rebuild failure happens at epoch `k`
the loop processes exactly epochs 0 through `k` and then returns (the
only way the function returns); and each epoch's trace ends with
exactly one topology rebuild before the next epoch's deliveries. -/
theorem claim_C8 (sessions : Nat → Session) (fuel : Nat) :
    ((∀ j, j < fuel → sessionRebuildOk (sessions j) = true) →
      ListenOrders sessions fuel = (epochsTrace sessions fuel, false))
    ∧ (∀ k, k < fuel →
        (∀ j, j < k → sessionRebuildOk (sessions j) = true) →
        sessionRebuildOk (sessions k) = false →
        ListenOrders sessions fuel = (epochsTrace sessions (k + 1), true))
    ∧ (∀ n, countRebuild (epochsTrace sessions n) = n) :=
  ⟨listenOrdersGo_all_ok fuel sessions,
   fun k hk hok hfail =>
     listenOrdersGo_first_fail k sessions fuel hk hok hfail,
   fun n => countRebuild_epochsTrace n sessions⟩

/-- C8 witness: with a rebuild that fails immediately, the loop
processes one epoch, attempts one rebuild and returns. -/
theorem claim_C8_witness :
    ListenOrders failSessions 1 = (epochsTrace failSessions 1, true) :=
  (claim_C8 failSessions 1).2.1 0 (by omega)
    (fun j hj => absurd hj (Nat.not_lt_zero j)) rfl

end Payment
